import Mathlib

/-!
Verification development for the COBALT environmental-records pipeline
(Wisconsin DNR BRRTS scraping / extraction / risk inference).

The Python sources are shallowly embedded:
* Python dicts with string keys are association lists `List (String × PyVal)`
  with Python-dict update semantics (`dset`): updating an existing key keeps
  its position, a new key is appended at the end (insertion order).
* Network and PDF-library effects are abstracted as oracle parameters
  (`download`, `extractPdf`, `fetch`); every theorem quantifies over them.
* Python's substring test `needle in hay` is `pyIn`, truthiness is `pyTruthy`.
-/

set_option autoImplicit false

namespace Cobalt

/-- Values stored in the Python dicts of this code base: strings, ints and
booleans (the only value shapes the embedded functions produce or read). -/
inductive PyVal where
  | vstr (s : String)
  | vint (n : Int)
  | vbool (b : Bool)
  | vnone
  deriving DecidableEq, Repr

/-- Python truthiness for the values above: empty string, zero, `False`
and `None` are falsy. -/
def pyTruthy : PyVal → Bool
  | .vstr s => !(s = "")
  | .vint n => !(n = 0)
  | .vbool b => b
  | .vnone => false

/-- Python `str()` of a value, as used inside f-strings. -/
def pyStr : PyVal → String
  | .vstr s => s
  | .vint n => toString n
  | .vbool b => if b then "True" else "False"
  | .vnone => "None"

/-- A Python dict with string keys, in insertion order. -/
abbrev Dict := List (String × PyVal)

/-- Keys of a dict, in order. -/
def dkeys (d : Dict) : List String := d.map Prod.fst

/-- `k in d` for a Python dict. -/
def hasKey : Dict → String → Bool
  | [], _ => false
  | p :: t, k => p.1 = k || hasKey t k

/-- `d.get(k)`: the value stored under `k`, if any. -/
def dget : Dict → String → Option PyVal
  | [], _ => none
  | p :: t, k => if p.1 = k then some p.2 else dget t k

/-- `d[k] = v` on a Python dict: update in place when the key exists,
append otherwise. -/
def dset : Dict → String → PyVal → Dict
  | [], k, v => [(k, v)]
  | p :: t, k, v => if p.1 = k then (k, v) :: t else p :: dset t k v

/-- `d.get(k, default)` read as a string via `str()` (all call sites in the
embedded code read string-valued fields). -/
def getStrD (d : Dict) (k : String) (dflt : String) : String :=
  match dget d k with
  | some v => pyStr v
  | none => dflt

theorem dkeys_dset (d : Dict) (k : String) (v : PyVal) :
    dkeys (dset d k v) = if hasKey d k then dkeys d else dkeys d ++ [k] := by
  induction d with
  | nil => simp [dset, hasKey, dkeys]
  | cons q t ih =>
    by_cases hq : q.1 = k
    · simp [dset, hasKey, dkeys, hq]
    · have hstep : hasKey (q :: t) k = hasKey t k := by
        simp [hasKey, hq]
      have hcons : dkeys (q :: dset t k v) = q.1 :: dkeys (dset t k v) := rfl
      simp only [dset, if_neg hq, hcons, ih, hstep]
      by_cases hk : hasKey t k
      · simp [hk, dkeys]
      · simp [hk, dkeys]

theorem dkeys_dset_of_hasKey (d : Dict) (k : String) (v : PyVal)
    (h : hasKey d k = true) : dkeys (dset d k v) = dkeys d := by
  rw [dkeys_dset, h]
  simp

theorem hasKey_dset (d : Dict) (k k' : String) (v : PyVal)
    (h : hasKey d k' = true) : hasKey (dset d k v) k' = true := by
  induction d with
  | nil => simp [hasKey] at h
  | cons q t ih =>
    by_cases hq : q.1 = k
    · rcases Bool.or_eq_true_iff.mp h with hh | hh
      · have : q.1 = k' := by simpa using hh
        simp [dset, hasKey, hq, hq ▸ this]
      · simp [dset, hasKey, hq, hh]
    · rcases Bool.or_eq_true_iff.mp h with hh | hh
      · simp [dset, hasKey, hq, hh]
      · simp [dset, hasKey, hq, ih hh]

theorem dget_dset_same (d : Dict) (k : String) (v : PyVal) :
    dget (dset d k v) k = some v := by
  induction d with
  | nil => simp [dset, dget]
  | cons q t ih =>
    by_cases hq : q.1 = k
    · simp [dset, dget, hq]
    · simp [dset, dget, hq, ih]

theorem dget_dset_ne (d : Dict) (k k' : String) (v : PyVal) (h : ¬ k = k') :
    dget (dset d k v) k' = dget d k' := by
  induction d with
  | nil =>
    have h2 : ¬ (k = k') := h
    simp [dset, dget, h2]
  | cons q t ih =>
    by_cases hq : q.1 = k
    · have hq' : ¬ (q.1 = k') := by
        rw [hq]; exact h
      simp [dset, dget, hq, h, hq']
    · by_cases hq' : q.1 = k'
      · have h2 : ¬ (k' = k) := by
          intro hh; exact h hh.symm
        simp [dset, dget, hq, hq', h2]
      · simp [dset, dget, hq, hq', ih]

theorem hasKey_iff_dget_isSome (d : Dict) (k : String) :
    hasKey d k = true ↔ (dget d k).isSome = true := by
  induction d with
  | nil => simp [hasKey, dget]
  | cons q t ih =>
    by_cases hq : q.1 = k
    · simp [hasKey, dget, hq]
    · simp [hasKey, dget, hq, ih]

/-! ### Python string containment (`needle in hay`) -/

/-- `needle` is a prefix of `hay` (character lists). -/
def isPrefL : List Char → List Char → Bool
  | [], _ => true
  | _ :: _, [] => false
  | a :: as_, b :: bs => a = b && isPrefL as_ bs

/-- `needle` occurs somewhere in `hay` (character lists). -/
def isSubL (needle : List Char) : List Char → Bool
  | [] => needle.isEmpty
  | c :: rest => isPrefL needle (c :: rest) || isSubL needle rest

/-- Python `needle in hay` on strings. -/
def pyIn (needle hay : String) : Bool := isSubL needle.data hay.data

/-- Python `s.lower()` (ASCII, as all texts here). Defined over the
character list so that it evaluates by kernel reduction. -/
def pyLower (s : String) : String := String.mk (s.data.map Char.toLower)

/-- Python `s.upper()`. -/
def pyUpper (s : String) : String := String.mk (s.data.map Char.toUpper)

/-- Python `s.strip()`: drop leading and trailing whitespace. -/
def pyStrip (s : String) : String :=
  String.mk (((s.data.dropWhile Char.isWhitespace).reverse.dropWhile
    Char.isWhitespace).reverse)

/-- Python `s.startswith(pre)`. -/
def pyStartsWith (s pre : String) : Bool := isPrefL pre.data s.data

/-! ## `pdf_extractor.py` — risk inference engine

`analyze_extracted_text_for_risks(text)` from `src/pdf_extractor.py`.
The keyword vocabularies are transcribed verbatim from the source.
The `concentrations_found` field (a regex `findall` count) is not modelled:
no claim under verification concerns it. -/

def pfas_keywords : List String :=
  ["pfas", "pfoa", "pfos", "perfluor", "forever chemical"]

def petroleum_keywords : List String :=
  ["petroleum", "gasoline", "diesel", "btex", "benzene", "toluene",
   "ethylbenzene", "xylene", "fuel oil", "heating oil", "ust ",
   "underground storage tank", "lust", "leaking underground"]

def metals_keywords : List String :=
  ["arsenic", "lead", "chromium", "mercury", "cadmium", "heavy metal",
   "metals contamination"]

def chlorinated_keywords : List String :=
  ["tce", "pce", "chlorinated", "trichloroethylene", "tetrachloroethylene",
   "vinyl chloride", "dce", "solvent"]

def closure_keywords : List String :=
  ["case closed", "no further action", "nfa", "closure", "closed"]

def open_keywords : List String :=
  ["open case", "ongoing", "active remediation", "monitoring required"]

def offsite_keywords : List String :=
  ["off-site", "offsite", "migrated", "plume", "groundwater impact",
   "vapor intrusion", "neighboring property"]

def groundwater_keywords : List String :=
  ["groundwater", "aquifer", "well contamination", "drinking water"]

def soil_keywords : List String :=
  ["soil contamination", "contaminated soil", "soil vapor"]

/-- Result of `analyze_extracted_text_for_risks`: the `risk_flags` sub-dict
(one Bool field per flag key, in source order), the inferred status and the
input text length. -/
structure RiskAnalysis where
  pfas : Bool
  petroleum : Bool
  heavy_metals : Bool
  chlorinated_solvents : Bool
  offsite_impact : Bool
  groundwater_impact : Bool
  soil_contamination : Bool
  inferred_status : String
  document_text_length : Nat
  deriving DecidableEq, Repr

/-- `analyze_extracted_text_for_risks` (src/pdf_extractor.py lines 198-261). -/
def analyze_extracted_text_for_risks (text : String) : RiskAnalysis :=
  let text_lower := pyLower text
  let has_closure := closure_keywords.any (fun kw => pyIn kw text_lower)
  let has_open := open_keywords.any (fun kw => pyIn kw text_lower)
  { pfas := pfas_keywords.any (fun kw => pyIn kw text_lower)
    petroleum := petroleum_keywords.any (fun kw => pyIn kw text_lower)
    heavy_metals := metals_keywords.any (fun kw => pyIn kw text_lower)
    chlorinated_solvents := chlorinated_keywords.any (fun kw => pyIn kw text_lower)
    offsite_impact := offsite_keywords.any (fun kw => pyIn kw text_lower)
    groundwater_impact := groundwater_keywords.any (fun kw => pyIn kw text_lower)
    soil_contamination := soil_keywords.any (fun kw => pyIn kw text_lower)
    inferred_status :=
      if has_closure && !has_open then "CLOSED"
      else if has_open then "OPEN"
      else "UNKNOWN"
    document_text_length := text.length }

/-! ## `pdf_extractor.py` — per-document extraction and the batch form

Network and PDF-library effects are oracles:
* `download : String → Option (List Nat)` models `download_pdf_content`
  (the bytes of the response, or `none` when the download failed);
* `extractPdf : List Nat → String` models `extract_text_from_pdf`
  (library backends plus `clean_extracted_text`; empty string on failure).
Every theorem below quantifies over both oracles. -/

/-- The initial `result` of `extract_document_text`: a copy of the document
with `extracted_text` set to `""` and `extraction_status` to `"no_url"`. -/
def edt_base (doc : Dict) : Dict :=
  dset (dset doc "extracted_text" (.vstr "")) "extraction_status"
    (.vstr "no_url")

/-- `extract_document_text` (src/pdf_extractor.py lines 135-168).
`download_url` values are strings throughout this repo, so a non-string
value is treated like an absent (falsy) one. -/
def extract_document_text (download : String → Option (List Nat))
    (extractPdf : List Nat → String) (doc : Dict) : Dict :=
  let result := edt_base doc
  match dget doc "download_url" with
  | some (.vstr url) =>
    if url = "" then result
    else
      match download url with
      | none => dset result "extraction_status" (.vstr "download_failed")
      | some content =>
        if content = [] then
          dset result "extraction_status" (.vstr "download_failed")
        else
          let text := extractPdf content
          if text = "" then
            dset result "extraction_status" (.vstr "extraction_failed")
          else
            dset (dset (dset result "extracted_text" (.vstr text))
              "extraction_status" (.vstr "success"))
              "text_length" (.vint text.length)
  | _ => result

/-- The per-document header line of the combined text
(`f"=== Document {i+1}: {name} ({date}) ===\n"`, 0-based `i`). -/
def doc_header (i : Nat) (doc : Dict) : String :=
  "=== Document " ++ toString (i + 1) ++ ": " ++ getStrD doc "name" "Unknown"
    ++ " (" ++ getStrD doc "date" "No date" ++ ") ===\n"

/-- The loop body of `extract_all_documents`: walks the (already truncated)
document list carrying the enumeration index, returning the per-document
results and the list of header-prefixed text parts of the successful ones. -/
def extract_all_loop (download : String → Option (List Nat))
    (extractPdf : List Nat → String) : List Dict → Nat → List Dict × List String
  | [], _ => ([], [])
  | doc :: rest, i =>
    let result := extract_document_text download extractPdf doc
    let tail := extract_all_loop download extractPdf rest (i + 1)
    let parts :=
      match dget result "extracted_text" with
      | some v =>
        if pyTruthy v then (doc_header i doc ++ pyStr v) :: tail.2 else tail.2
      | none => tail.2
    (result :: tail.1, parts)

/-- The `"="*80` divider of the combined text. -/
def eq_divider : String := String.mk (List.replicate 80 '=')

/-- `extract_all_documents` (src/pdf_extractor.py lines 171-195).  Note the
combined text follows Python operator precedence:
`"\n\n" + "="*80 + "\n\n".join(all_text_parts)` when any part exists. -/
def extract_all_documents (download : String → Option (List Nat))
    (extractPdf : List Nat → String) (documents : List Dict)
    (max_documents : Nat := 50) : List Dict × String :=
  let r := extract_all_loop download extractPdf (documents.take max_documents) 0
  (r.1,
    if r.2 = [] then ""
    else "\n\n" ++ eq_divider ++ String.intercalate "\n\n" r.2)

/-! ## Document-link collection (shared loop of `playwright_scraper.py`
lines 176-201 and `document_scraper.py` lines 108-130)

The two scrapers run character-identical loops over the anchors found on
the page; the embedding takes the list of raw `href` attribute values
(in page order, possibly with duplicates and empty strings) as input. -/

/-- Leftmost match of the regex `docSeqNo=(\d+)`: the maximal digit run
following the first occurrence of `docSeqNo=` that is followed by at least
one digit. -/
def dropLit : List Char → List Char → Option (List Char)
  | [], rest => some rest
  | _ :: _, [] => none
  | a :: as_, b :: bs => if a = b then dropLit as_ bs else none

def findSeqAux : List Char → Option String
  | [] => none
  | c :: rest =>
    match dropLit "docSeqNo=".data (c :: rest) with
    | some tail =>
      let ds := tail.takeWhile Char.isDigit
      if ds.isEmpty then findSeqAux rest else some (String.mk ds)
    | none => findSeqAux rest

def findDocSeqNo (s : String) : Option String := findSeqAux s.data

/-- `href if href.startswith('http') else f"https://apps.dnr.wi.gov{href}"`. -/
def resolve_href (href : String) : String :=
  if pyStartsWith href "http" then href else "https://apps.dnr.wi.gov" ++ href

/-- The document dict appended for the `idx`-th surviving link with resolved
URL `full` (both scrapers append the identical literal). The fallback
sequence number `str(len(documents))` equals the new document's index. -/
def scraped_doc (idx : Nat) (full : String) : Dict :=
  let seq_no := (findDocSeqNo full).getD (toString idx)
  [("id", .vint idx),
   ("download_url", .vstr full),
   ("category", .vstr "Site File"),
   ("date", .vstr ""),
   ("action_code", .vstr ""),
   ("name", .vstr ("Site File Documentation (ID: " ++ seq_no ++ ")")),
   ("comment", .vstr "DNR site documentation")]

/-- The scrapers' anchor loop: skip empty hrefs and hrefs already in
`seen_urls` (exact string match on the raw href), append a document dict
for each survivor. -/
def collect_go (seen : List String) (docs : List Dict) :
    List String → List Dict
  | [] => docs
  | href :: rest =>
    if href ≠ "" ∧ ¬ href ∈ seen then
      collect_go (seen ++ [href])
        (docs ++ [scraped_doc docs.length (resolve_href href)]) rest
    else
      collect_go seen docs rest

/-- The full document-collection pass over the page's raw hrefs. -/
def collect_documents (hrefs : List String) : List Dict :=
  collect_go [] [] hrefs

/-! ## `document_scraper.py` — requests fallback -/

/-- `dict.get(k)` truthiness (`risk_flags.get("petroleum")` and friends). -/
def getTruthy (d : Dict) (k : String) : Bool :=
  match dget d k with
  | some v => pyTruthy v
  | none => false

/-- `generate_summary` (src/document_scraper.py lines 166-214). -/
def generate_summary (site_info : Dict) (risk_flags : Dict)
    (doc_count : Nat) : String :=
  let location := getStrD site_info "location_name" "Unknown Location"
  let activity_num :=
    match dget site_info "activity_number" with
    | some v => pyStr v
    | none => getStrD site_info "dsn" "Unknown"
  let status :=
    match dget site_info "status" with
    | some v => pyStr v
    | none => getStrD risk_flags "status_label" "Unknown"
  let activity_type := getStrD site_info "activity_type" "Unknown"
  let address := getStrD site_info "address" ""
  let municipality := getStrD site_info "municipality" ""
  let county := getStrD site_info "county" ""
  let location_parts := [location]
    ++ (if address ≠ "" then ["at " ++ address] else [])
    ++ (if municipality ≠ "" then [municipality] else [])
    ++ (if county ≠ "" then [county ++ " County"] else [])
  let location_str :=
    String.intercalate ", " (location_parts.filter (fun s => s ≠ ""))
  let risks :=
    (if getTruthy risk_flags "petroleum"
      then ["Petroleum contamination indicated (LUST site)"] else [])
    ++ (if getTruthy risk_flags "pfas"
      then ["PFAS contamination present"] else [])
    ++ (if getTruthy risk_flags "heavy_metals"
      then ["Heavy metals detected"] else [])
    ++ (if getTruthy risk_flags "chlorinated_solvents"
      then ["Chlorinated solvents present"] else [])
    ++ (if getTruthy risk_flags "offsite_impact"
      then ["Off-site or ROW impact noted"] else [])
  let risk_text :=
    if risks ≠ [] then
      String.intercalate "\n" (risks.map (fun r => "- " ++ r))
    else "- No major risk indicators identified from site data"
  "Site: " ++ location_str
    ++ "\nActivity: " ++ activity_num ++ " | Type: " ++ activity_type
    ++ " | Status: " ++ status
    ++ "\n\nStart Date: " ++ getStrD site_info "start_date" "Unknown"
    ++ "\nEnd Date: " ++ getStrD site_info "end_date" "N/A"
    ++ "\n\nRisk Indicators:\n" ++ risk_text
    ++ "\n\nDocuments Available: " ++ toString doc_count
    ++ "\n\nRecommendations:"
    ++ "\n- Select documents and click \"Extract Text\" to analyze content"
    ++ "\n- For legal decisions, always conduct professional Phase I/II ESA review"

/-- What the requests+BeautifulSoup layer hands to `extract_with_requests`
once the page fetch succeeded: the page's visible text, the optional header
regex match (groups: activity number, raw location-name group), and the raw
hrefs of the anchors whose href matches `download-document|docSeqNo`. -/
structure ReqPage where
  page_text : String
  header_match : Option (String × String)
  doc_hrefs : List String

/-- Result dict shape shared by the discovery functions. -/
structure ScrapeResult where
  site_info : Dict
  risk_flags : Dict
  documents : List Dict
  summary : String
  error : Option String
  note : Option String
  deriving Repr

/-- The risk-flag portion of `extract_with_requests`: starts from
`{"status_label": "UNKNOWN"}` and adds `petroleum` only when the page text
carries a lust/petroleum substring (src/document_scraper.py lines 89,
132-134). -/
def requests_risk_flags (page_text : String) : Dict :=
  let rf : Dict := [("status_label", .vstr "UNKNOWN")]
  if pyIn "lust" (pyLower page_text) || pyIn "petroleum" (pyLower page_text) then
    dset rf "petroleum" (.vbool true)
  else rf

/-- `extract_with_requests` (src/document_scraper.py lines 84-154).
`fetch` is `.error e` when the HTTP request (or parsing) raised with
message `e`, `.ok page` otherwise. -/
def extract_with_requests (dsn : String) (fetch : Except String ReqPage) :
    ScrapeResult :=
  match fetch with
  | .error e =>
    { site_info := [("dsn", .vstr dsn)]
      risk_flags := [("status_label", .vstr "UNKNOWN")]
      documents := []
      summary := "Error: " ++ e
      error := some e
      note := none }
  | .ok page =>
    let site_info : Dict :=
      match page.header_match with
      | some g =>
        dset (dset [("dsn", .vstr dsn)] "activity_number" (.vstr g.1))
          "location_name" (.vstr (pyStrip g.2))
      | none => [("dsn", .vstr dsn)]
    let documents := collect_documents page.doc_hrefs
    let risk_flags := requests_risk_flags page.page_text
    { site_info := site_info
      risk_flags := risk_flags
      documents := documents
      summary := generate_summary site_info risk_flags documents.length
      error := none
      note := some "Limited data - JavaScript content not available in serverless mode" }

/-! ## `playwright_scraper.py` — risk-flag derivation

`scrape_brrts_site` drives a real browser; its risk-flag derivation
(lines 121-173) is a pure function of what the browser session yielded:
the mapped site status, the activity type, the positional list of
input-field values, and the rendered page text. The embedding takes those
as arguments. -/

def char_map : List (Nat × String) :=
  [(0, "above_ground_tank"), (1, "dry_cleaner"), (2, "epa_npl"),
   (3, "pecfa_eligible"), (4, "pfas"), (5, "row_impact"),
   (6, "sediments"), (7, "wi_dot"), (8, "underground_tank")]

/-- The body of the characteristics loop for one `char_name` whose value
cell reads `"yes"` (src/playwright_scraper.py lines 150-160). -/
def apply_characteristic (rf : Dict) (char_name : String) : Dict :=
  if char_name = "pfas" then dset rf "pfas" (.vbool true)
  else if char_name = "underground_tank" then
    dset (dset rf "petroleum" (.vbool true)) "underground_tank" (.vbool true)
  else if char_name = "above_ground_tank" then
    dset (dset rf "petroleum" (.vbool true)) "above_ground_tank" (.vbool true)
  else if char_name = "row_impact" then dset rf "offsite_impact" (.vbool true)
  else rf

/-- The characteristics loop over `char_map` (values offset 17). -/
def char_loop (values : List String) : Dict → List (Nat × String) → Dict
  | rf, [] => rf
  | rf, (char_idx, char_name) :: rest =>
    let val_idx := 17 + char_idx
    let rf' :=
      if val_idx < values.length then
        (if pyLower (pyStrip (values.getD val_idx "")) = "yes" then
          apply_characteristic rf char_name
        else rf)
      else rf
    char_loop values rf' rest

def heavy_metal_page_keywords : List String :=
  ["arsenic", "lead", "chromium", "mercury", "cadmium"]

def solvent_page_keywords : List String :=
  ["tce", "pce", "trichloroethylene", "tetrachloroethylene", "chlorinated"]

/-- The full `risk_flags` computation of `scrape_brrts_site`
(src/playwright_scraper.py lines 121-173). `site_status` is
`site_info.get("status", "UNKNOWN")` and `activity_type` is
`site_info.get("activity_type", "")`. -/
def playwright_risk_flags (site_status : String) (activity_type : String)
    (values : List String) (page_text : String) : Dict :=
  let rf : Dict :=
    [("status_label", .vstr (pyUpper site_status)),
     ("pfas", .vbool false),
     ("petroleum", .vbool false),
     ("heavy_metals", .vbool false),
     ("chlorinated_solvents", .vbool false),
     ("offsite_impact", .vbool false),
     ("underground_tank", .vbool false),
     ("above_ground_tank", .vbool false)]
  let rf := char_loop values rf char_map
  let rf :=
    if pyUpper activity_type = "LUST" then dset rf "petroleum" (.vbool true)
    else rf
  let page_lower := pyLower page_text
  let rf :=
    if pyIn "petroleum" page_lower then dset rf "petroleum" (.vbool true)
    else rf
  let rf :=
    if heavy_metal_page_keywords.any (fun m => pyIn m page_lower) then
      dset rf "heavy_metals" (.vbool true)
    else rf
  let rf :=
    if solvent_page_keywords.any (fun s => pyIn s page_lower) then
      dset rf "chlorinated_solvents" (.vbool true)
    else rf
  rf

/-! ## `brrts_client.py` -/

/-- What the HTML layer hands to `fetch_site_data` when the GET succeeded:
the label→value lookup over adjacent table cells (`none` when the label
cell is absent), the raw response text, and the parsed document rows
(title, date, already-joined URL or `none` when the row has no anchor). -/
structure BrtsPage where
  labelValue : String → Option String
  raw_text : String
  doc_rows : List (String × String × Option String)

/-- Result dict shape of `fetch_site_data`. -/
structure BrrtsResult where
  site_info : Dict
  risk_flags : Dict
  summary : String
  documents : List Dict
  deriving Repr

/-- `get_text(label)` inside `fetch_site_data`. -/
def brrts_get_text (page : BrtsPage) (label : String) : String :=
  (page.labelValue label).getD "Not available"

/-- `fetch_site_data` (src/brrts_client.py lines 19-128). `fetch` is
`.error e` when `requests.get`/`raise_for_status` raised with message `e`. -/
def fetch_site_data (brrts_id : String) (fetch : Except String BrtsPage) :
    BrrtsResult :=
  match fetch with
  | .error _ =>
    { site_info :=
        [("dsn", .vstr brrts_id),
         ("activity_number", .vstr "ERROR"),
         ("status", .vstr "UNAVAILABLE"),
         ("activity_type", .vstr "UNAVAILABLE"),
         ("location_name", .vstr "Could not reach DNR site"),
         ("address", .vstr "N/A"),
         ("municipality", .vstr "N/A"),
         ("county", .vstr "N/A"),
         ("dnr_region", .vstr "N/A"),
         ("start_date", .vstr "N/A"),
         ("end_date", .vstr "N/A")]
      risk_flags :=
        [("status_label", .vstr "UNKNOWN"),
         ("pfas", .vbool false),
         ("petroleum", .vbool false),
         ("heavy_metals", .vbool false),
         ("offsite_impact", .vbool false)]
      summary := "Unable to connect to Wisconsin DNR BRRTS system."
      documents := [] }
  | .ok page =>
    let site_info : Dict :=
      [("dsn", .vstr brrts_id),
       ("activity_number", .vstr (brrts_get_text page "Activity Number")),
       ("status", .vstr (brrts_get_text page "Status")),
       ("activity_type", .vstr (brrts_get_text page "Activity Type")),
       ("location_name", .vstr (brrts_get_text page "Location Name")),
       ("address", .vstr (brrts_get_text page "Address")),
       ("municipality", .vstr (brrts_get_text page "Municipality")),
       ("county", .vstr (brrts_get_text page "County")),
       ("dnr_region", .vstr (brrts_get_text page "DNR Region")),
       ("start_date", .vstr (brrts_get_text page "Start Date")),
       ("end_date", .vstr (brrts_get_text page "End Date"))]
    let status_text := pyUpper (brrts_get_text page "Status")
    let risk_flags : Dict :=
      [("status_label", .vstr status_text),
       ("pfas", .vbool (pyIn "PFAS" page.raw_text)),
       ("petroleum", .vbool (pyIn "PETROLEUM" page.raw_text
          || pyIn "LUST" page.raw_text)),
       ("heavy_metals", .vbool (pyIn "METAL" page.raw_text)),
       ("offsite_impact", .vbool (pyIn "OFFSITE" page.raw_text))]
    let documents := page.doc_rows.map (fun row =>
      [("title", .vstr row.1),
       ("date", .vstr row.2.1),
       ("url", match row.2.2 with
         | some u => .vstr u
         | none => .vnone)])
    let summary :=
      "This summary is generated from publicly available Wisconsin DNR BRRTS data.\n\n"
      ++ "1. Regulatory Status\n"
      ++ "- Current status is listed as: " ++ brrts_get_text page "Status" ++ ".\n\n"
      ++ "2. Environmental Risk Indicators\n"
      ++ "- Petroleum, metals, or PFAS may be present depending on site history.\n\n"
      ++ "3. Advisory\n"
      ++ "- Always review original reports and closure letters for legal decisions.\n"
      ++ "- Phase I/II ESA review is recommended for acquisition.\n"
    { site_info := site_info
      risk_flags := risk_flags
      summary := summary
      documents := documents }

/-! ## `filedownload.py` — `DocumentSession.download_document`

`download_file` (the network fetch plus on-disk naming) is the oracle
`fetchFile url filename`, returning the saved path or `none` when it
raised. The session's `downloaded_files` mapping is the explicit state;
`fetches` counts how many times the oracle was consulted. -/

structure SessionState where
  downloaded_files : List (PyVal × String)
  deriving Repr

structure DownloadOutcome where
  result : Option String
  state : SessionState
  fetches : Nat
  deriving Repr

/-- The filename munging of `download_document`:
`doc.get("name", "document.pdf").replace("/", "_").replace("\\", "_")`
(name values are strings throughout this repo). -/
def session_filename (doc : Dict) : String :=
  let nm :=
    match dget doc "name" with
    | some (.vstr s) => s
    | _ => "document.pdf"
  (nm.replace "/" "_").replace "\\" "_"

/-- The cache key `doc_id = doc.get("id") or url` of `download_document`
(src/filedownload.py line 69): the `id` value when truthy, the download
URL otherwise. -/
def cache_key (doc : Dict) (url : String) : PyVal :=
  match dget doc "id" with
  | some v => if pyTruthy v then v else .vstr url
  | none => .vstr url

/-- `DocumentSession.download_document` (src/filedownload.py lines 63-83).
`download_url` values are strings throughout this repo, so a non-string
value is treated like an absent (falsy) one. -/
def download_document (fetchFile : String → String → Option String)
    (s : SessionState) (doc : Dict) : DownloadOutcome :=
  match dget doc "download_url" with
  | some (.vstr url) =>
    if url = "" then ⟨none, s, 0⟩
    else
      let doc_id : PyVal := cache_key doc url
      match s.downloaded_files.find? (fun p => p.1 = doc_id) with
      | some p => ⟨some p.2, s, 0⟩
      | none =>
        match fetchFile url (session_filename doc) with
        | some path => ⟨some path, ⟨s.downloaded_files ++ [(doc_id, path)]⟩, 1⟩
        | none => ⟨none, s, 1⟩
  | _ => ⟨none, s, 0⟩

/-! # Theorems -/

/-- **C2.** `analyze_extracted_text_for_risks` returns inferred status
`"CLOSED"` iff some closure keyword occurs in the lowercased text and no
open-case keyword does; `"OPEN"` iff some open-case keyword occurs (open
takes precedence when both vocabularies appear); `"UNKNOWN"` otherwise. -/
theorem inferred_status_iff (text : String) :
    ((analyze_extracted_text_for_risks text).inferred_status = "CLOSED"
      ↔ ((∃ kw ∈ closure_keywords, pyIn kw (pyLower text) = true)
          ∧ ¬ ∃ kw ∈ open_keywords, pyIn kw (pyLower text) = true))
    ∧ ((analyze_extracted_text_for_risks text).inferred_status = "OPEN"
      ↔ ∃ kw ∈ open_keywords, pyIn kw (pyLower text) = true)
    ∧ ((analyze_extracted_text_for_risks text).inferred_status = "UNKNOWN"
      ↔ ((¬ ∃ kw ∈ closure_keywords, pyIn kw (pyLower text) = true)
          ∧ ¬ ∃ kw ∈ open_keywords, pyIn kw (pyLower text) = true)) := by
  have hC : (closure_keywords.any (fun kw => pyIn kw (pyLower text)) = true)
      ↔ ∃ kw ∈ closure_keywords, pyIn kw (pyLower text) = true := by
    simp [List.any_eq_true]
  have hO : (open_keywords.any (fun kw => pyIn kw (pyLower text)) = true)
      ↔ ∃ kw ∈ open_keywords, pyIn kw (pyLower text) = true := by
    simp [List.any_eq_true]
  cases hc : closure_keywords.any (fun kw => pyIn kw (pyLower text)) <;>
    cases ho : open_keywords.any (fun kw => pyIn kw (pyLower text)) <;>
    simp only [analyze_extracted_text_for_risks, hc, ho, ← hC, ← hO] <;>
    simp [hc, ho]

/-- **C5.** Each risk flag of the inference result is true iff at least one
keyword of that flag's fixed (lowercase) vocabulary occurs in the
lowercased input text — pure keyword-set membership, no scoring — and
analyzing the empty string yields every flag false and status
`"UNKNOWN"`. -/
theorem risk_flags_iff (text : String) :
    ((analyze_extracted_text_for_risks text).pfas = true
      ↔ ∃ kw ∈ pfas_keywords, pyIn kw (pyLower text) = true)
    ∧ ((analyze_extracted_text_for_risks text).petroleum = true
      ↔ ∃ kw ∈ petroleum_keywords, pyIn kw (pyLower text) = true)
    ∧ ((analyze_extracted_text_for_risks text).heavy_metals = true
      ↔ ∃ kw ∈ metals_keywords, pyIn kw (pyLower text) = true)
    ∧ ((analyze_extracted_text_for_risks text).chlorinated_solvents = true
      ↔ ∃ kw ∈ chlorinated_keywords, pyIn kw (pyLower text) = true)
    ∧ ((analyze_extracted_text_for_risks text).offsite_impact = true
      ↔ ∃ kw ∈ offsite_keywords, pyIn kw (pyLower text) = true)
    ∧ ((analyze_extracted_text_for_risks text).groundwater_impact = true
      ↔ ∃ kw ∈ groundwater_keywords, pyIn kw (pyLower text) = true)
    ∧ ((analyze_extracted_text_for_risks text).soil_contamination = true
      ↔ ∃ kw ∈ soil_keywords, pyIn kw (pyLower text) = true)
    ∧ analyze_extracted_text_for_risks "" =
        { pfas := false, petroleum := false, heavy_metals := false,
          chlorinated_solvents := false, offsite_impact := false,
          groundwater_impact := false, soil_contamination := false,
          inferred_status := "UNKNOWN", document_text_length := 0 } := by
  refine ⟨?_, ?_, ?_, ?_, ?_, ?_, ?_, ?_⟩
  all_goals
    first
    | · simp [analyze_extracted_text_for_risks, List.any_eq_true]
    | decide

/-! ### Key-set lemmas for the risk-flag dicts (C1) -/

theorem hasKey_iff_mem_dkeys (d : Dict) (k : String) :
    hasKey d k = true ↔ k ∈ dkeys d := by
  induction d with
  | nil => simp [hasKey, dkeys]
  | cons q t ih =>
    by_cases hq : q.1 = k
    · simp [hasKey, dkeys, hq]
    · have hq2 : ¬ (k = q.1) := fun hh => hq hh.symm
      simp [hasKey, dkeys, hq, hq2, ih]

theorem dkeys_dset_preserved (d : Dict) (k : String) (v : PyVal)
    (L : List String) (h : dkeys d = L) (hk : k ∈ L) :
    dkeys (dset d k v) = L := by
  have hmem : hasKey d k = true :=
    (hasKey_iff_mem_dkeys d k).mpr (by rw [h]; exact hk)
  rw [dkeys_dset_of_hasKey d k v hmem, h]

theorem dkeys_ite_dset (c : Prop) [Decidable c] (d : Dict) (k : String)
    (v : PyVal) (L : List String) (h : dkeys d = L) (hk : k ∈ L) :
    dkeys (if c then dset d k v else d) = L := by
  split
  · exact dkeys_dset_preserved d k v L h hk
  · exact h

/-- The full key set of the rendered-path risk-flag dict. -/
def flag_keys : List String :=
  ["status_label", "pfas", "petroleum", "heavy_metals",
   "chlorinated_solvents", "offsite_impact", "underground_tank",
   "above_ground_tank"]

theorem apply_characteristic_keys (rf : Dict) (name : String)
    (h : dkeys rf = flag_keys) :
    dkeys (apply_characteristic rf name) = flag_keys := by
  unfold apply_characteristic
  by_cases h1 : name = "pfas"
  · rw [if_pos h1]
    exact dkeys_dset_preserved rf "pfas" _ flag_keys h (by decide)
  · rw [if_neg h1]
    by_cases h2 : name = "underground_tank"
    · rw [if_pos h2]
      exact dkeys_dset_preserved _ "underground_tank" _ flag_keys
        (dkeys_dset_preserved rf "petroleum" _ flag_keys h (by decide))
        (by decide)
    · rw [if_neg h2]
      by_cases h3 : name = "above_ground_tank"
      · rw [if_pos h3]
        exact dkeys_dset_preserved _ "above_ground_tank" _ flag_keys
          (dkeys_dset_preserved rf "petroleum" _ flag_keys h (by decide))
          (by decide)
      · rw [if_neg h3]
        by_cases h4 : name = "row_impact"
        · rw [if_pos h4]
          exact dkeys_dset_preserved rf "offsite_impact" _ flag_keys h
            (by decide)
        · rw [if_neg h4]
          exact h

theorem char_loop_keys (values : List String)
    (entries : List (Nat × String)) (rf : Dict)
    (h : dkeys rf = flag_keys) :
    dkeys (char_loop values rf entries) = flag_keys := by
  induction entries generalizing rf with
  | nil => simpa [char_loop] using h
  | cons e rest ih =>
    obtain ⟨ci, cn⟩ := e
    simp only [char_loop]
    apply ih
    split
    · split
      · exact apply_characteristic_keys rf cn h
      · exact h
    · exact h

theorem playwright_risk_flags_keys (s a : String) (values : List String)
    (pt : String) :
    dkeys (playwright_risk_flags s a values pt) = flag_keys := by
  simp only [playwright_risk_flags]
  apply dkeys_ite_dset _ _ "chlorinated_solvents" _ _ _ (by decide)
  apply dkeys_ite_dset _ _ "heavy_metals" _ _ _ (by decide)
  apply dkeys_ite_dset _ _ "petroleum" _ _ _ (by decide)
  apply dkeys_ite_dset _ _ "petroleum" _ _ _ (by decide)
  apply char_loop_keys
  rfl

/-- **C1 (amended).** Only the rendered (Playwright) strategy returns a
risk-flag mapping containing every known flag key, the booleans defaulting
false when no signal is found; the plain-fetch fallback's mapping carries
only `status_label`, plus `petroleum` exactly when a lust/petroleum
substring occurs in the page text; the fallback's unreachable record
carries only `status_label`; and the `brrts_client` unreachable record
carries five of the keys but omits `chlorinated_solvents`. -/
theorem risk_flag_key_presence (s a pt t idn e : String)
    (values : List String) :
    dkeys (playwright_risk_flags s a values pt) = flag_keys
    ∧ playwright_risk_flags s "" [] "" =
        [("status_label", .vstr (pyUpper s)), ("pfas", .vbool false),
         ("petroleum", .vbool false), ("heavy_metals", .vbool false),
         ("chlorinated_solvents", .vbool false),
         ("offsite_impact", .vbool false),
         ("underground_tank", .vbool false),
         ("above_ground_tank", .vbool false)]
    ∧ dkeys (requests_risk_flags t) =
        (if pyIn "lust" (pyLower t) || pyIn "petroleum" (pyLower t) then
          ["status_label", "petroleum"]
        else ["status_label"])
    ∧ dkeys (extract_with_requests idn (.error e)).risk_flags =
        ["status_label"]
    ∧ dkeys (fetch_site_data idn (.error e)).risk_flags =
        ["status_label", "pfas", "petroleum", "heavy_metals",
         "offsite_impact"] := by
  refine ⟨playwright_risk_flags_keys s a values pt, rfl, ?_, rfl, rfl⟩
  cases hb : (pyIn "lust" (pyLower t) || pyIn "petroleum" (pyLower t)) <;>
    simp [requests_risk_flags, hb] <;> rfl

/-- **C1 (counterexample).** A concrete discovery call on the plain-fetch
fallback path whose returned risk-flag mapping omits the `pfas` key (the
claim states every known flag key is present on every path). -/
theorem requests_path_omits_pfas_key :
    hasKey (extract_with_requests "123456"
      (.ok ⟨"", none, []⟩)).risk_flags "pfas" = false := by
  decide

/-- **C3 (amended).** When the host is unreachable, `fetch_site_data`
returns an explicit degraded record whose site-info `status` is
`"UNAVAILABLE"`, whose `location_name` is the fixed sentinel
`"Could not reach DNR site"` and whose summary states inability to
connect, while the risk-flag `status_label` remains `"UNKNOWN"`; the
`document_scraper` fallback instead returns a record with the raised
message in its `error` field and an `"Error: ..."` summary — in both
clients distinguishable from a success path (whose `error` is none). -/
theorem unreachable_host_record (idn e : String) :
    dget (fetch_site_data idn (.error e)).site_info "status" =
      some (.vstr "UNAVAILABLE")
    ∧ dget (fetch_site_data idn (.error e)).site_info "location_name" =
      some (.vstr "Could not reach DNR site")
    ∧ (fetch_site_data idn (.error e)).summary =
      "Unable to connect to Wisconsin DNR BRRTS system."
    ∧ dget (fetch_site_data idn (.error e)).risk_flags "status_label" =
      some (.vstr "UNKNOWN")
    ∧ (fetch_site_data idn (.error e)).documents = []
    ∧ (extract_with_requests idn (.error e)).error = some e
    ∧ (extract_with_requests idn (.error e)).summary = "Error: " ++ e
    ∧ (∀ page : ReqPage, (extract_with_requests idn (.ok page)).error = none) :=
  ⟨rfl, rfl, rfl, rfl, rfl, rfl, rfl, fun _ => rfl⟩

/-- **C3 (counterexample).** At a concrete unreachable-host call the
returned risk-flag `status_label` is not `"UNAVAILABLE"` (it stays
`"UNKNOWN"`; only the site-info `status` field reads `"UNAVAILABLE"`). -/
theorem unreachable_status_label_not_unavailable :
    ¬ dget (fetch_site_data "123456"
        (.error "connection timed out")).risk_flags "status_label" =
      some (.vstr "UNAVAILABLE") := by
  decide

/-! ### Per-document extraction lemmas (C4, C6, C7) -/

theorem dget_edt_base_frame (doc : Dict) (k : String)
    (h1 : ¬ k = "extracted_text") (h2 : ¬ k = "extraction_status") :
    dget (edt_base doc) k = dget doc k := by
  unfold edt_base
  rw [dget_dset_ne _ _ _ _ (fun hh => h2 hh.symm),
    dget_dset_ne _ _ _ _ (fun hh => h1 hh.symm)]

theorem dget_edt_base_text (doc : Dict) :
    dget (edt_base doc) "extracted_text" = some (.vstr "") := by
  unfold edt_base
  rw [dget_dset_ne _ _ _ _ (by decide)]
  exact dget_dset_same _ _ _

theorem dget_edt_base_status (doc : Dict) :
    dget (edt_base doc) "extraction_status" = some (.vstr "no_url") :=
  dget_dset_same _ _ _

/-- The four result shapes of `extract_document_text`, one per
`extraction_status` value. -/
theorem edt_shape (dl : String → Option (List Nat))
    (ex : List Nat → String) (doc : Dict) :
    extract_document_text dl ex doc = edt_base doc
    ∨ extract_document_text dl ex doc =
        dset (edt_base doc) "extraction_status" (.vstr "download_failed")
    ∨ extract_document_text dl ex doc =
        dset (edt_base doc) "extraction_status" (.vstr "extraction_failed")
    ∨ ∃ t : String, ¬ t = "" ∧ extract_document_text dl ex doc =
        dset (dset (dset (edt_base doc) "extracted_text" (.vstr t))
          "extraction_status" (.vstr "success")) "text_length"
          (.vint t.length) := by
  simp only [extract_document_text]
  split
  · split
    · left; rfl
    · split
      · right; left; rfl
      · split
        · right; left; rfl
        · split
          · right; right; left; rfl
          · next content _ _ ht =>
              exact Or.inr (Or.inr (Or.inr ⟨ex content, ht, rfl⟩))
  · left; rfl

/-- Empty `download_url` short-circuits to the initial no-url result. -/
theorem edt_empty_url (dl : String → Option (List Nat))
    (ex : List Nat → String) (doc : Dict)
    (h : dget doc "download_url" = some (.vstr "")) :
    extract_document_text dl ex doc = edt_base doc := by
  unfold extract_document_text
  rw [h]
  simp

/-- **C7 (amended).** The per-document extractor result agrees with the
input document on every key other than the three attached fields
`extracted_text`, `extraction_status`, `text_length`; its
`extraction_status` is one of the four documented values; the
`extracted_text` key is always present (initialized to the empty string);
and its value is a nonempty string iff the status is `"success"`. -/
theorem extract_document_text_frame (dl : String → Option (List Nat))
    (ex : List Nat → String) (doc : Dict) :
    (∀ k : String,
      ¬ k ∈ ["extracted_text", "extraction_status", "text_length"] →
      dget (extract_document_text dl ex doc) k = dget doc k)
    ∧ (∃ st : String,
        dget (extract_document_text dl ex doc) "extraction_status" =
          some (.vstr st)
        ∧ st ∈ ["success", "download_failed", "extraction_failed", "no_url"])
    ∧ hasKey (extract_document_text dl ex doc) "extracted_text" = true
    ∧ ((∃ t : String,
        dget (extract_document_text dl ex doc) "extracted_text" =
          some (.vstr t) ∧ ¬ t = "")
      ↔ dget (extract_document_text dl ex doc) "extraction_status" =
          some (.vstr "success")) := by
  rcases edt_shape dl ex doc with h | h | h | ⟨t, ht, h⟩ <;> rw [h]
  · refine ⟨?_, ⟨"no_url", dget_edt_base_status doc, by decide⟩, ?_, ?_⟩
    · intro k hk
      simp only [List.mem_cons, List.mem_singleton, not_or] at hk
      exact dget_edt_base_frame doc k hk.1 hk.2.1
    · rw [hasKey_iff_dget_isSome, dget_edt_base_text doc]
      rfl
    · constructor
      · rintro ⟨t, h1, h2⟩
        rw [dget_edt_base_text doc] at h1
        exact absurd (PyVal.vstr.inj (Option.some.inj h1)).symm h2
      · intro hh
        rw [dget_edt_base_status doc] at hh
        exact absurd (PyVal.vstr.inj (Option.some.inj hh)) (by decide)
  · refine ⟨?_, ⟨"download_failed", dget_dset_same _ _ _, by decide⟩, ?_, ?_⟩
    · intro k hk
      simp only [List.mem_cons, List.mem_singleton, not_or] at hk
      rw [dget_dset_ne _ _ _ _ (fun hh => hk.2.1 hh.symm)]
      exact dget_edt_base_frame doc k hk.1 hk.2.1
    · rw [hasKey_iff_dget_isSome, dget_dset_ne _ _ _ _ (by decide),
        dget_edt_base_text doc]
      rfl
    · constructor
      · rintro ⟨t, h1, h2⟩
        rw [dget_dset_ne _ _ _ _ (by decide), dget_edt_base_text doc] at h1
        exact absurd (PyVal.vstr.inj (Option.some.inj h1)).symm h2
      · intro hh
        rw [dget_dset_same] at hh
        exact absurd (PyVal.vstr.inj (Option.some.inj hh)) (by decide)
  · refine ⟨?_, ⟨"extraction_failed", dget_dset_same _ _ _, by decide⟩, ?_, ?_⟩
    · intro k hk
      simp only [List.mem_cons, List.mem_singleton, not_or] at hk
      rw [dget_dset_ne _ _ _ _ (fun hh => hk.2.1 hh.symm)]
      exact dget_edt_base_frame doc k hk.1 hk.2.1
    · rw [hasKey_iff_dget_isSome, dget_dset_ne _ _ _ _ (by decide),
        dget_edt_base_text doc]
      rfl
    · constructor
      · rintro ⟨t, h1, h2⟩
        rw [dget_dset_ne _ _ _ _ (by decide), dget_edt_base_text doc] at h1
        exact absurd (PyVal.vstr.inj (Option.some.inj h1)).symm h2
      · intro hh
        rw [dget_dset_same] at hh
        exact absurd (PyVal.vstr.inj (Option.some.inj hh)) (by decide)
  · have hstat : dget (dset (dset (dset (edt_base doc) "extracted_text"
        (.vstr t)) "extraction_status" (.vstr "success")) "text_length"
        (.vint t.length)) "extraction_status" = some (.vstr "success") := by
      rw [dget_dset_ne _ _ _ _ (by decide)]
      exact dget_dset_same _ _ _
    have htext : dget (dset (dset (dset (edt_base doc) "extracted_text"
        (.vstr t)) "extraction_status" (.vstr "success")) "text_length"
        (.vint t.length)) "extracted_text" = some (.vstr t) := by
      rw [dget_dset_ne _ _ _ _ (by decide), dget_dset_ne _ _ _ _ (by decide)]
      exact dget_dset_same _ _ _
    refine ⟨?_, ⟨"success", hstat, by decide⟩, ?_, ?_⟩
    · intro k hk
      simp only [List.mem_cons, List.mem_singleton, not_or] at hk
      rw [dget_dset_ne _ _ _ _ (fun hh => hk.2.2.1 hh.symm),
        dget_dset_ne _ _ _ _ (fun hh => hk.2.1 hh.symm),
        dget_dset_ne _ _ _ _ (fun hh => hk.1 hh.symm)]
      exact dget_edt_base_frame doc k hk.1 hk.2.1
    · rw [hasKey_iff_dget_isSome, htext]
      rfl
    · exact ⟨fun _ => hstat, fun _ => ⟨t, htext, ht⟩⟩

/-- **C7 (counterexample).** A concrete document without a URL: the result
carries the `extracted_text` key while its status is `"no_url"`, so
"`extracted_text` present iff status is `success`" fails as stated. -/
theorem extracted_text_present_without_success :
    ¬ ((hasKey (extract_document_text (fun _ => none) (fun _ => "")
          [("id", .vint 3)]) "extracted_text" = true)
        ↔ dget (extract_document_text (fun _ => none) (fun _ => "")
          [("id", .vint 3)]) "extraction_status" = some (.vstr "success")) := by
  decide

/-- **C7 (witness).** The frame theorem applied to a concrete document and
identity key. -/
theorem extract_document_text_frame_witness :
    dget (extract_document_text (fun _ => none) (fun _ => "")
      [("id", .vint 3)]) "id" = dget [("id", PyVal.vint 3)] "id" :=
  (extract_document_text_frame (fun _ => none) (fun _ => "")
    [("id", .vint 3)]).1 "id" (by decide)

theorem extract_all_loop_fst (dl : String → Option (List Nat))
    (ex : List Nat → String) (l : List Dict) (i : Nat) :
    (extract_all_loop dl ex l i).1 = l.map (extract_document_text dl ex) := by
  induction l generalizing i with
  | nil => rfl
  | cons d rest ih => simp [extract_all_loop, ih]

/-- **C4.** The batch extractor's per-document results are exactly the
per-document extractor mapped over the first `limit` documents in input
order (so each outcome depends only on its own document and no failure
aborts the batch), the limit defaults to 50, and a document with an empty
`download_url` yields the no-url result with `extraction_status`
`"no_url"`. -/
theorem extract_all_documents_spec (dl : String → Option (List Nat))
    (ex : List Nat → String) (documents : List Dict) (limit : Nat) :
    (extract_all_documents dl ex documents limit).1 =
      (documents.take limit).map (extract_document_text dl ex)
    ∧ extract_all_documents dl ex documents =
        extract_all_documents dl ex documents 50
    ∧ (∀ doc : Dict, dget doc "download_url" = some (.vstr "") →
        extract_document_text dl ex doc = edt_base doc
        ∧ dget (extract_document_text dl ex doc) "extraction_status" =
          some (.vstr "no_url")) := by
  refine ⟨?_, rfl, ?_⟩
  · unfold extract_all_documents
    exact extract_all_loop_fst dl ex (documents.take limit) 0
  · intro doc h
    have he := edt_empty_url dl ex doc h
    exact ⟨he, by rw [he]; exact dget_edt_base_status doc⟩

/-- **C4 (witness).** The batch theorem applied to a concrete one-document
batch whose document has an empty `download_url`. -/
theorem extract_all_documents_spec_witness :
    dget (extract_document_text (fun _ => some [1]) (fun _ => "T")
      [("download_url", .vstr "")]) "extraction_status" =
      some (.vstr "no_url") :=
  ((extract_all_documents_spec (fun _ => some [1]) (fun _ => "T")
    [[("download_url", PyVal.vstr "")]] 50).2.2
    [("download_url", PyVal.vstr "")] rfl).2

/-- The combined-text contribution of the document at enumeration index
`i`: the header-prefixed extracted text when extraction succeeded with a
truthy (nonempty) text, nothing otherwise. -/
def success_part (dl : String → Option (List Nat))
    (ex : List Nat → String) (i : Nat) (doc : Dict) : Option String :=
  match dget (extract_document_text dl ex doc) "extracted_text" with
  | some v =>
    if pyTruthy v then some (doc_header i doc ++ pyStr v) else none
  | none => none

theorem extract_all_loop_snd (dl : String → Option (List Nat))
    (ex : List Nat → String) (l : List Dict) (i : Nat) :
    (extract_all_loop dl ex l i).2 =
      (l.enumFrom i).filterMap (fun p => success_part dl ex p.1 p.2) := by
  induction l generalizing i with
  | nil => rfl
  | cons d rest ih =>
    simp only [extract_all_loop, List.enumFrom, List.filterMap, success_part]
    cases hv : dget (extract_document_text dl ex d) "extracted_text" with
    | none => simpa using ih (i + 1)
    | some v =>
      cases hb : pyTruthy v with
      | false => simpa [hb] using ih (i + 1)
      | true => simpa [hb] using ih (i + 1)

/-- **C6 (amended).** The combined text of a batch is empty when no
document extracted successfully; otherwise it is the fixed prefix of one
blank line plus an 80-character `=` divider, followed by each successful
document's text prefixed with its one-line position/name header, the parts
joined with blank-line separators. -/
theorem combined_text_spec (dl : String → Option (List Nat))
    (ex : List Nat → String) (documents : List Dict) (limit : Nat) :
    (extract_all_documents dl ex documents limit).2 =
      (if ((documents.take limit).enum.filterMap
            (fun p => success_part dl ex p.1 p.2)) = [] then ""
       else "\n\n" ++ eq_divider ++ String.intercalate "\n\n"
          ((documents.take limit).enum.filterMap
            (fun p => success_part dl ex p.1 p.2))) := by
  simp only [extract_all_documents]
  rw [extract_all_loop_snd dl ex (documents.take limit) 0]
  rfl

/-- **C6 (counterexample).** A concrete one-document batch that extracts
successfully: the combined text is not the bare header-prefixed document
text (the claim's "concatenation joined with blank-line separators") but
carries the leading blank line and 80-character `=` divider. -/
theorem combined_text_not_plain_concat :
    ¬ (extract_all_documents (fun _ => some [1]) (fun _ => "TEXT")
        [[("download_url", .vstr "u"), ("name", .vstr "N"),
          ("date", .vstr "D")]] 50).2 = "=== Document 1: N (D) ===\nTEXT"
    ∧ (extract_all_documents (fun _ => some [1]) (fun _ => "TEXT")
        [[("download_url", .vstr "u"), ("name", .vstr "N"),
          ("date", .vstr "D")]] 50).2 =
      "\n\n" ++ eq_divider ++ "=== Document 1: N (D) ===\nTEXT" := by
  constructor <;> decide

/-! ### Session cache theorems (C8, C10) -/

/-- **C8.** Materializing the same document twice in one session is
idempotent: when the first call (on a fresh session) succeeds with a saved
path, it performs exactly one fetch, and the second call returns that same
path with zero further fetches. -/
theorem download_document_idempotent
    (fetchFile : String → String → Option String) (s : SessionState)
    (doc : Dict) (pth : String)
    (h0 : s.downloaded_files = [])
    (h1 : (download_document fetchFile s doc).result = some pth) :
    (download_document fetchFile s doc).fetches = 1
    ∧ (download_document fetchFile
        ((download_document fetchFile s doc).state) doc).result = some pth
    ∧ (download_document fetchFile
        ((download_document fetchFile s doc).state) doc).fetches = 0 := by
  cases hurl : dget doc "download_url" with
  | none =>
    simp only [download_document, hurl] at h1
    cases h1
  | some v =>
    cases v with
    | vstr url =>
      by_cases hu : url = ""
      · simp only [download_document, hurl, if_pos hu] at h1
        cases h1
      · cases hf : fetchFile url (session_filename doc) with
        | none =>
          simp only [download_document, hurl, if_neg hu, h0,
            List.find?_nil, hf] at h1
          cases h1
        | some path =>
          simp only [download_document, hurl, if_neg hu, h0,
            List.find?_nil, hf] at h1 ⊢
          have hp : path = pth := Option.some.inj h1
          subst hp
          refine ⟨trivial, ?_, ?_⟩ <;>
            simp [download_document, hurl, if_neg hu, List.find?]
    | vint n =>
      simp only [download_document, hurl] at h1
      cases h1
    | vbool b =>
      simp only [download_document, hurl] at h1
      cases h1
    | vnone =>
      simp only [download_document, hurl] at h1
      cases h1

/-- **C8 (witness).** The idempotence theorem at a concrete session: one
fetch on the first call, a cache hit on the second. -/
theorem download_document_idempotent_witness :
    (download_document (fun u _ => some ("/tmp/" ++ u)) ⟨[]⟩
      [("id", .vint 5), ("download_url", .vstr "a"),
       ("name", .vstr "n")]).fetches = 1
    ∧ (download_document (fun u _ => some ("/tmp/" ++ u))
        ((download_document (fun u _ => some ("/tmp/" ++ u)) ⟨[]⟩
          [("id", .vint 5), ("download_url", .vstr "a"),
           ("name", .vstr "n")]).state)
        [("id", .vint 5), ("download_url", .vstr "a"),
         ("name", .vstr "n")]).result = some "/tmp/a"
    ∧ (download_document (fun u _ => some ("/tmp/" ++ u))
        ((download_document (fun u _ => some ("/tmp/" ++ u)) ⟨[]⟩
          [("id", .vint 5), ("download_url", .vstr "a"),
           ("name", .vstr "n")]).state)
        [("id", .vint 5), ("download_url", .vstr "a"),
         ("name", .vstr "n")]).fetches = 0 :=
  download_document_idempotent (fun u _ => some ("/tmp/" ++ u)) ⟨[]⟩
    [("id", .vint 5), ("download_url", .vstr "a"), ("name", .vstr "n")]
    "/tmp/a" rfl (by decide)

/-- **C10.** The session cache keys a materialized document by its truthy
`id`, falling back to the download URL (`cache_key`): a successful fresh
materialization records exactly the pair `(cache_key, path)`, and a second
document carrying the same cache key — e.g. the same truthy id with a
different URL — gets the first document's saved path back with no fetch of
its own URL. -/
theorem download_document_cache_semantics
    (fetchFile : String → String → Option String) (s : SessionState)
    (d1 d2 : Dict) (u1 u2 pth : String)
    (h0 : s.downloaded_files = [])
    (h1u : dget d1 "download_url" = some (.vstr u1)) (h1ne : ¬ u1 = "")
    (h2u : dget d2 "download_url" = some (.vstr u2)) (h2ne : ¬ u2 = "")
    (hkey : cache_key d2 u2 = cache_key d1 u1)
    (hres : (download_document fetchFile s d1).result = some pth) :
    (download_document fetchFile s d1).state.downloaded_files =
      [(cache_key d1 u1, pth)]
    ∧ (download_document fetchFile
        ((download_document fetchFile s d1).state) d2).result = some pth
    ∧ (download_document fetchFile
        ((download_document fetchFile s d1).state) d2).fetches = 0 := by
  cases hf : fetchFile u1 (session_filename d1) with
  | none =>
    simp only [download_document, h1u, if_neg h1ne, h0, List.find?_nil,
      hf] at hres
    cases hres
  | some path =>
    simp only [download_document, h1u, if_neg h1ne, h0, List.find?_nil,
      hf] at hres ⊢
    have hp : path = pth := Option.some.inj hres
    subst hp
    refine ⟨by simp, ?_, ?_⟩ <;>
      simp [download_document, h2u, if_neg h2ne, List.find?, hkey]

/-- **C10 (witness).** Two documents sharing the truthy id 5 with distinct
URLs `"a"` and `"b"`: the second materialization returns the path saved
for the first URL and fetches nothing. -/
theorem download_document_cache_semantics_witness :
    (download_document (fun u _ => some ("/tmp/" ++ u)) ⟨[]⟩
      [("id", .vint 5), ("download_url", .vstr "a"),
       ("name", .vstr "n")]).state.downloaded_files =
      [(cache_key [("id", .vint 5), ("download_url", .vstr "a"),
        ("name", .vstr "n")] "a", "/tmp/a")]
    ∧ (download_document (fun u _ => some ("/tmp/" ++ u))
        ((download_document (fun u _ => some ("/tmp/" ++ u)) ⟨[]⟩
          [("id", .vint 5), ("download_url", .vstr "a"),
           ("name", .vstr "n")]).state)
        [("id", .vint 5), ("download_url", .vstr "b")]).result =
      some "/tmp/a"
    ∧ (download_document (fun u _ => some ("/tmp/" ++ u))
        ((download_document (fun u _ => some ("/tmp/" ++ u)) ⟨[]⟩
          [("id", .vint 5), ("download_url", .vstr "a"),
           ("name", .vstr "n")]).state)
        [("id", .vint 5), ("download_url", .vstr "b")]).fetches = 0 :=
  download_document_cache_semantics (fun u _ => some ("/tmp/" ++ u)) ⟨[]⟩
    [("id", .vint 5), ("download_url", .vstr "a"), ("name", .vstr "n")]
    [("id", .vint 5), ("download_url", .vstr "b")]
    "a" "b" "/tmp/a" rfl rfl (by decide) rfl (by decide) (by decide) (by decide)

/-! ### Document collection theorems (C9) -/

/-- Modelled from the spec's document-identity rules (§4.1), corrected by
the code's actual sequence-number use: walk the raw hrefs in page order,
keep the first occurrence of each nonempty raw href (exact-string dedup,
no URL normalization), and build for the `n`-th survivor the document dict
`scraped_doc n (resolve_href href)` — whose `id` is the synthetic counter
`n` and whose name embeds the `docSeqNo` query parameter when the resolved
URL carries one, the counter otherwise. -/
def spec_collect (seen : List String) (n : Nat) : List String → List Dict
  | [] => []
  | href :: rest =>
    if href ≠ "" ∧ ¬ href ∈ seen then
      scraped_doc n (resolve_href href) ::
        spec_collect (seen ++ [href]) (n + 1) rest
    else spec_collect seen n rest

theorem collect_go_eq_spec (hrefs : List String) :
    ∀ seen docs, collect_go seen docs hrefs =
      docs ++ spec_collect seen docs.length hrefs := by
  induction hrefs with
  | nil => intro seen docs; simp [collect_go, spec_collect]
  | cons href rest ih =>
    intro seen docs
    by_cases hc : href ≠ "" ∧ ¬ href ∈ seen
    · simp only [collect_go, spec_collect, if_pos hc]
      rw [ih]
      simp
    · simp only [collect_go, spec_collect, if_neg hc]
      exact ih seen docs

theorem scraped_doc_no_seq_key (i : Nat) (full : String) :
    hasKey (scraped_doc i full) "doc_seq_no" = false := rfl

theorem spec_collect_no_seq_key (hrefs : List String) :
    ∀ seen n, (spec_collect seen n hrefs).all
      (fun d => !(hasKey d "doc_seq_no")) = true := by
  induction hrefs with
  | nil => intro seen n; rfl
  | cons href rest ih =>
    intro seen n
    by_cases hc : href ≠ "" ∧ ¬ href ∈ seen
    · simp only [spec_collect, if_pos hc, List.all_cons,
        scraped_doc_no_seq_key, ih]
      rfl
    · simp only [spec_collect, if_neg hc]
      exact ih seen n

/-- **C9 (amended).** The scrapers deduplicate documents by exact string
match on the raw link href before any URL normalization (so two links
differing only by a trailing fragment both survive as distinct entries);
each surviving document gets the synthetic counter as its `id` and a name
embedding the sequence number parsed from the URL's `docSeqNo` query
parameter when present, the synthetic counter otherwise — but no separate
`doc_seq_no` field is stored on the document. -/
theorem collect_documents_spec (hrefs : List String) :
    collect_documents hrefs = spec_collect [] 0 hrefs
    ∧ (collect_documents hrefs).all
        (fun d => !(hasKey d "doc_seq_no")) = true
    ∧ (collect_documents
        ["/download?docSeqNo=1", "/download?docSeqNo=1#frag"]).length = 2
    ∧ collect_documents
        ["/download?docSeqNo=1", "/download?docSeqNo=1"] =
      collect_documents ["/download?docSeqNo=1"] := by
  have h := collect_go_eq_spec hrefs [] []
  refine ⟨h, ?_, by decide, by decide⟩
  rw [show collect_documents hrefs = spec_collect [] 0 hrefs from h]
  exact spec_collect_no_seq_key hrefs [] 0

/-- **C9 (counterexample).** A concrete discovery pass over one document
link carrying `docSeqNo=7`: the surviving document dict has no
`doc_seq_no` key at all (the sequence number only lands inside the name
string), so "each surviving document is assigned a sequence number
`doc_seq_no`" fails as stated. -/
theorem no_doc_seq_no_field :
    (collect_documents ["/a?docSeqNo=7"]).length = 1
    ∧ hasKey ((collect_documents ["/a?docSeqNo=7"]).getD 0 [])
        "doc_seq_no" = false
    ∧ dget ((collect_documents ["/a?docSeqNo=7"]).getD 0 []) "name" =
        some (.vstr "Site File Documentation (ID: 7)") := by
  refine ⟨?_, ?_, ?_⟩ <;> decide

end Cobalt
